import Mathlib

/-!
Shallow embedding of `src/app.py` (a Streamlit A/B-testing app).

The embedding covers, translated from the source:
* the per-session trial state (`st.session_state`, lines 19-28) and the two
  button handlers of `main` that drive it (`Start Test`, lines 203-209, and
  `I Can Answer Now`, lines 215-235);
* the store boundary: `get_interactions_data` (lines 57-68) and
  `log_interaction` (lines 70-91), with the spreadsheet connector's read
  outcome passed in explicitly (`Except`), and a successful
  `conn.update(...)` replacing the whole worksheet;
* the analysis code: the summary statistics of `display_stats`
  (lines 135-156) and the significance-test branch of `main`
  (lines 243-263), modelled over the two columns they read
  (`chart_type`, `time_taken`); a NaN cell (a non-numeric `time_taken`
  coerced by `pd.to_numeric(errors="coerce")`, line 64) is `none`;
* the CSV export (`DataFrame.to_csv(index=False)`, line 268), over lists of
  characters.

Wall-clock readings (`time.time()`) and durations are rationals; the random
condition draw (`random.choice`, line 207) and the logger outcome are
explicit inputs of the handlers.
-/

/-- The two chart conditions drawn at trial start (`random.choice(['violin',
'pair'])`, line 207). -/
inductive Condition
  | violin
  | pair
  deriving DecidableEq, Repr

/-- Streamlit session state driving a trial (lines 19-28): whether a chart is
displayed, the trial's start time, the drawn chart type, and the
already-logged flag. The per-session `user_id` (line 28) is constant across
a session and not consulted by any transition, so it is omitted. -/
structure SessionState where
  chart_displayed : Bool
  start_time : Option ℚ
  chart_type : Option Condition
  interaction_logged : Bool
  deriving DecidableEq, Repr

/-- Initial session state (lines 19-28): no chart displayed, no start time,
no chart type, already-logged flag clear. -/
def initState : SessionState :=
  { chart_displayed := false, start_time := none, chart_type := none,
    interaction_logged := false }

/-- Session state after the unconditional reset at lines 228-231 of the
completion handler: all four trial fields cleared. -/
def idleReset : SessionState :=
  { chart_displayed := false, start_time := none, chart_type := none,
    interaction_logged := false }

/-- Content of one record handed to `log_interaction` (lines 219, 70-77), as
far as the trial machine determines it: the chart type shown and the measured
duration (the timestamp and the constant per-session `user_id` are omitted). -/
structure LoggedRecord where
  chart : Condition
  time_taken : ℚ
  deriving DecidableEq, Repr

/-- Effect of a press of the `Start Test` button (lines 203-209): the button
is rendered only when no chart is displayed (line 203), so while a trial is
active no press can occur and the state is unchanged; otherwise the handler
sets `chart_displayed`, records the clock reading as `start_time`, stores the
drawn chart type and clears the already-logged flag (lines 205-208). The
random draw and the clock reading are explicit inputs. -/
def startPressed (draw : Condition) (now : ℚ) (s : SessionState) : SessionState :=
  if s.chart_displayed then s
  else
    { chart_displayed := true, start_time := some now,
      chart_type := some draw, interaction_logged := false }

/-- Observable outcome of one press of the `I Can Answer Now` button: the
session state afterwards, the records appended to the interactions worksheet
by the press, and whether the failure message of line 227 was shown. -/
structure StepResult where
  state : SessionState
  appended : List LoggedRecord
  errorShown : Bool
  deriving DecidableEq, Repr

/-- Effect of a press of the `I Can Answer Now` button (lines 215-235). The
button is rendered only while a chart is displayed (line 210), so with
`chart_displayed` false nothing happens. Otherwise (lines 216-231): the
duration is `end_time - start_time` (line 217, no clamping); if the
already-logged flag is clear, `log_interaction` is invoked (lines 218-219) —
on success it appends exactly the new record and the flag is set (lines
220-221), on failure the store is unchanged (the raised `conn.update` leaves
the worksheet as it was, line 86 and lines 89-91) and the error of line 227
is shown; afterwards, in every case, lines 228-231 reset `interaction_logged`,
`chart_displayed`, `chart_type` and `start_time`. The logger outcome and the
clock reading are explicit inputs; in every reachable state with
`chart_displayed` set, `start_time` and `chart_type` are set, so the `getD`
defaults are never exercised there. -/
def completePressed (loggerOk : Bool) (now : ℚ) (s : SessionState) : StepResult :=
  if s.chart_displayed then
    let duration := now - s.start_time.getD 0
    let attempt : List LoggedRecord × Bool :=
      if s.interaction_logged = false then
        if loggerOk then
          ([{ chart := s.chart_type.getD Condition.violin, time_taken := duration }], false)
        else ([], true)
      else ([], false)
    { state := idleReset, appended := attempt.1, errorShown := attempt.2 }
  else { state := s, appended := [], errorShown := false }

/-- Value of the `interaction_logged` flag at the moment `log_interaction` is
invoked (line 219), when it is invoked at all: the invocation happens exactly
when the button is shown (`chart_displayed`, line 210) and the flag is clear
(line 218), and no assignment to the flag occurs between that check and the
call, so at the call the flag still holds its entry value. The flag is
assigned `True` only after the logger has returned success (line 221). -/
def loggedFlagWhenLoggerInvoked (s : SessionState) : Option Bool :=
  if s.chart_displayed = true ∧ s.interaction_logged = false then
    some s.interaction_logged
  else none

/-- One user action driving the trial machine: a `Start Test` press (with the
random draw and the clock reading as explicit inputs) or an `I Can Answer
Now` press (with the logger outcome and the clock reading as explicit
inputs). -/
inductive Event
  | start (draw : Condition) (now : ℚ)
  | complete (loggerOk : Bool) (now : ℚ)
  deriving DecidableEq, Repr

/-- Whether the event's logger call, if it makes one, succeeds. -/
def Event.loggerOk : Event → Bool
  | .start _ _ => true
  | .complete ok _ => ok

/-- Run a sequence of user actions from a session state. Returns the final
state, the total number of records appended to the interactions worksheet,
and the number of completion presses that found a trial active
(`chart_displayed` set), i.e. the number of completed trials. -/
def runEvents : SessionState → List Event → SessionState × Nat × Nat
  | s, [] => (s, 0, 0)
  | s, Event.start d t :: es => runEvents (startPressed d t s) es
  | s, Event.complete ok t :: es =>
    let r := completePressed ok t s
    let rest := runEvents r.state es
    (rest.1, r.appended.length + rest.2.1,
      (if s.chart_displayed then 1 else 0) + rest.2.2)

/-- Cell of a worksheet as surfaced by the spreadsheet connector: a numeric
value, a text value that is not parseable as a number, or a missing/NaN
value (numeric-looking text is surfaced as a numeric value by the
connector's own typing, so `Cell.str` stands for genuinely non-numeric
content). -/
inductive Cell
  | num (q : ℚ)
  | str (s : String)
  | nan
  deriving DecidableEq, Repr

/-- Tabular worksheet data: column names and rows of cells, rows aligned
positionally with the columns. -/
structure Table where
  cols : List String
  rows : List (List Cell)
  deriving DecidableEq, Repr

/-- Column names of the interactions schema (lines 62, 68, 72-77, 81). -/
def interactionCols : List String :=
  ["timestamp", "user_id", "chart_type", "time_taken"]

/-- Empty table carrying the interactions schema columns, returned by
`get_interactions_data` on an empty read (line 62) and on a read error
(line 68). -/
def schemaEmpty : Table := { cols := interactionCols, rows := [] }

/-- Effect of `pd.to_numeric(..., errors="coerce")` (line 64) on one cell:
numeric values survive, everything not parseable as a number becomes NaN. -/
def toNumericCell : Cell → Cell
  | Cell.num q => Cell.num q
  | _ => Cell.nan

/-- Coercion of the `time_taken` column to numeric (lines 63-64): every cell
sitting under a column named `time_taken` is coerced, all other cells are
untouched. -/
def coerceTimeTaken (t : Table) : Table :=
  { cols := t.cols,
    rows := t.rows.map (fun r =>
      (t.cols.zip r).map (fun p =>
        if p.1 = "time_taken" then toNumericCell p.2 else p.2)) }

/-- Translation of `get_interactions_data` (lines 57-68), with the
connector's read outcome passed in explicitly. A raised read error is caught
and the empty schema table returned (lines 66-68); an empty read returns the
empty schema table (lines 61-62); otherwise the `time_taken` column, when
present, is coerced to numeric (lines 63-64) and the table returned. The
function is total: no outcome of the read escapes as an exception. -/
def get_interactions_data (readResult : Except String Table) : Table :=
  match readResult with
  | Except.error _ => schemaEmpty
  | Except.ok df =>
    if df.rows = [] then schemaEmpty
    else if "time_taken" ∈ df.cols then coerceTimeTaken df else df

/-- Table written back to the interactions worksheet by `log_interaction`
(lines 70-91) when the final `conn.update` succeeds: the existing data is
obtained through `get_interactions_data` (line 79), the new row built from
the call's arguments (lines 72-77), and the concatenation of the two
(lines 83-84) handed to `conn.update(worksheet="interactions", ...)`
(line 86), which replaces the whole worksheet. -/
def log_interaction_write (readResult : Except String Table)
    (ts uid ct : String) (tt : ℚ) : Table :=
  let existing := get_interactions_data readResult
  { cols := existing.cols,
    rows := existing.rows ++ [[Cell.str ts, Cell.str uid, Cell.str ct, Cell.num tt]] }

/-- Outcome of the connector read inside `log_interaction` while the
worksheet durably holds `prior`: either the read raises (`fails` set) or it
returns the stored table. -/
def readOutcome (prior : Table) (fails : Bool) (e : String) : Except String Table :=
  if fails then Except.error e else Except.ok prior

/-- Contents of the interactions worksheet after one `log_interaction` call
during which the worksheet held `prior`, the read behaved as `fails`/`e`
says, and the final `conn.update` succeeded. -/
def sheetAfterLog (prior : Table) (fails : Bool) (e ts uid ct : String)
    (tt : ℚ) : Table :=
  log_interaction_write (readOutcome prior fails e) ts uid ct tt

/-- One row of the interactions data as consumed by the analysis code, which
reads exactly the `chart_type` and `time_taken` columns (lines 144, 246-247):
the chart type as text and the numeric time taken, `none` standing for NaN
(a non-numeric cell coerced at line 64). -/
structure Row where
  chart_type : String
  time_taken : Option ℚ
  deriving DecidableEq, Repr

/-- Total interactions count of the summary (line 142): the plain number of
rows, NaN `time_taken` rows included. -/
def totalInteractions (rs : List Row) : Nat := rs.length

/-- Series of `time_taken` values selected for one chart type, as built by
`interactions_data.groupby('chart_type')['time_taken']` for a group (line
144) and by the masks of lines 246-247: every row whose `chart_type` equals
the label contributes its value, NaN included. -/
def groupVals (rs : List Row) (c : String) : List (Option ℚ) :=
  (rs.filter (fun r => r.chart_type == c)).map (fun r => r.time_taken)

/-- Values of a series that are not NaN. -/
def numericVals (vs : List (Option ℚ)) : List ℚ := vs.filterMap id

/-- pandas `count` aggregation (line 144): the number of non-NaN values of
the series. -/
def aggCount (vs : List (Option ℚ)) : Nat := (numericVals vs).length

/-- Arithmetic mean of a list of rationals. -/
def sampleMean (l : List ℚ) : ℚ := l.sum / (l.length : ℚ)

/-- Bessel-corrected sample variance of a list of rationals (`ddof = 1`, the
pandas and scipy default): undefined (NaN, modelled `none`) on fewer than two
values. -/
def sampleVar (l : List ℚ) : Option ℚ :=
  if l.length < 2 then none
  else some ((l.map (fun x => (x - sampleMean l) ^ 2)).sum / ((l.length : ℚ) - 1))

/-- pandas `mean` aggregation (line 144): mean of the non-NaN values, NaN
(`none`) when there are none. -/
def aggMean (vs : List (Option ℚ)) : Option ℚ :=
  if numericVals vs = [] then none else some (sampleMean (numericVals vs))

/-- pandas `min` aggregation (line 144) over the non-NaN values. -/
def aggMin (vs : List (Option ℚ)) : Option ℚ := (numericVals vs).min?

/-- pandas `max` aggregation (line 144) over the non-NaN values. -/
def aggMax (vs : List (Option ℚ)) : Option ℚ := (numericVals vs).max?

/-- pandas `std` aggregation (line 144) over the non-NaN values, represented
by its square, the sample variance (the square root of a rational need not
be rational); NaN (`none`) on fewer than two non-NaN values. -/
def aggVar (vs : List (Option ℚ)) : Option ℚ := sampleVar (numericVals vs)

/-- Rows of one chart type whose `time_taken` is not NaN: the rows that
actually enter the per-condition count, mean, min, max and std. -/
def usableRows (rs : List Row) (c : String) : List Row :=
  rs.filter (fun r => r.chart_type == c && r.time_taken.isSome)

/-- Series handed as the first sample of the t-test call (line 246). -/
def violin_times (rs : List Row) : List (Option ℚ) := groupVals rs "violin"

/-- Series handed as the second sample of the t-test call (line 247). -/
def pair_times (rs : List Row) : List (Option ℚ) := groupVals rs "pair"

/-- Observable outcome of the statistical-analysis block (lines 243-263):
either the `not enough data` message of line 263, or silence (the guard of
line 249 failed and the block renders nothing), or a run of the t-test call
of line 250 carrying its two sample series and its `equal_var` argument. -/
inductive SigOutcome
  | insufficientData
  | noReport
  | testRun (sample1 sample2 : List (Option ℚ)) (equalVar : Bool)
  deriving DecidableEq, Repr

/-- Translation of the statistical-analysis block (lines 243-263): the outer
guard requires a non-empty table of more than 20 rows (line 243), else the
insufficient-data message is shown (line 263); inside it, the t-test runs
only when both per-condition series are non-empty (line 249), with
`equal_var=False` (line 250), and when one series is empty nothing at all is
rendered (the `if` of line 249 has no `else`). -/
def computeSignificance (rs : List Row) : SigOutcome :=
  if ¬rs = [] ∧ 20 < rs.length then
    if 0 < (violin_times rs).length ∧ 0 < (pair_times rs).length then
      SigOutcome.testRun (violin_times rs) (pair_times rs) false
    else SigOutcome.noReport
  else SigOutcome.insufficientData

/-- All values of a series when none of them is NaN, `none` otherwise. -/
def seqOpts : List (Option ℚ) → Option (List ℚ)
  | [] => some []
  | none :: _ => none
  | some q :: t => (seqOpts t).map (fun l => q :: l)

/-- Modelled from the spec: Welch's unequal-variance two-sample t statistic,
the computation performed by the external `scipy.stats.ttest_ind(...,
equal_var=False)` call of line 250 (library code, not part of this
repository; the spec names it as "Welch's t-test (unequal-variance
two-sample t-test)"). The library propagates NaN inputs and yields NaN when
a sample's Bessel-corrected variance is undefined (fewer than two values) or
when the standard-error denominator is zero; `none` models these undefined
outcomes. The statistic is represented by its square (its square root need
not be rational); the reported p_value is a function of the statistic and
the Welch degrees of freedom and is defined exactly when the statistic is. -/
def welchTSq (xs ys : List (Option ℚ)) : Option ℚ :=
  match seqOpts xs, seqOpts ys with
  | some a, some b =>
    match sampleVar a, sampleVar b with
    | some v1, some v2 =>
      let d := v1 / (a.length : ℚ) + v2 / (b.length : ℚ)
      if d = 0 then none
      else some ((sampleMean a - sampleMean b) ^ 2 / d)
    | _, _ => none
  | _, _ => none

/-- Splitting helper: first group of a character list up to the first
separator, and the remaining groups. -/
def splitAux (c : Char) : List Char → List Char × List (List Char)
  | [] => ([], [])
  | x :: xs =>
    let r := splitAux c xs
    if x = c then ([], r.1 :: r.2) else (x :: r.1, r.2)

/-- Split a character list on a separator character; always returns at least
one (possibly empty) group. -/
def splitOnChar (c : Char) (l : List Char) : List (List Char) :=
  (splitAux c l).1 :: (splitAux c l).2

/-- One in-memory interaction record at the export boundary, its four fields
as rendered to text by `DataFrame.to_csv` (line 268): timestamp, user id,
chart type and the decimal rendering of the time taken. -/
structure CsvRow where
  timestamp : List Char
  user_id : List Char
  chart_type : List Char
  time_taken : List Char
  deriving DecidableEq, Repr

/-- The four fields of a record in schema order. -/
def rowFields (r : CsvRow) : List (List Char) :=
  [r.timestamp, r.user_id, r.chart_type, r.time_taken]

/-- Header line of the export, matching the persisted schema (line 268 with
`index=False`). -/
def headerChars : List Char := "timestamp,user_id,chart_type,time_taken".toList

/-- One exported data line: the four fields joined by commas. `to_csv` emits
a field unquoted exactly when it contains no delimiter, quote or line
terminator (QUOTE_MINIMAL), the case the round-trip statement assumes. -/
def rowLine (r : CsvRow) : List Char :=
  r.timestamp ++ ',' :: (r.user_id ++ ',' :: (r.chart_type ++ ',' :: r.time_taken))

/-- Translation of `interactions_data.to_csv(index=False)` (line 268): the
header line followed by one line per record, every line terminated by a
newline. The output is a pure function of the record list. -/
def toCsv (rows : List CsvRow) : List Char :=
  (headerChars :: rows.map rowLine).foldr (fun l acc => l ++ '\n' :: acc) []

/-- Parse one data line into a record: exactly four comma-separated fields. -/
def parseRow (l : List Char) : Option CsvRow :=
  match splitOnChar ',' l with
  | [a, b, c, d] => some ⟨a, b, c, d⟩
  | _ => none

/-- Parse a list of data lines, failing if any line fails. -/
def parseRows : List (List Char) → Option (List CsvRow)
  | [] => some []
  | l :: ls =>
    match parseRow l, parseRows ls with
    | some r, some rs => some (r :: rs)
    | _, _ => none

/-- Modelled from the spec: re-parsing of the exported delimited text. The
repository only writes the CSV (line 268); the spec's round-trip property
("exporting N records to delimited text and re-parsing yields N records")
names a re-parse, modelled here: split the text into newline-separated
lines, require the first to be the schema header and the text to end in a
newline (an empty last group), and parse every remaining line as a record. -/
def parseCsv (text : List Char) : Option (List CsvRow) :=
  match splitOnChar '\n' text with
  | [] => none
  | h :: rest =>
    if h = headerChars ∧ rest.getLast? = some [] then parseRows rest.dropLast
    else none

/-- Field well-formedness for the unquoted-CSV round trip: the field contains
no delimiter, no line terminator and no quote character (so `to_csv` writes
it verbatim, without quoting). -/
def goodField (f : List Char) : Prop := ',' ∉ f ∧ '\n' ∉ f ∧ '"' ∉ f

instance (f : List Char) : Decidable (goodField f) := by
  unfold goodField
  infer_instance

/-- Concrete interaction table: 21 recorded rows, all of the violin
condition, each with a numeric time. -/
def exAllViolin : List Row := List.replicate 21 ⟨"violin", some 5⟩

/-- Concrete interaction table: 20 violin rows of time 5 and a single pair
row of time 7 — total 21, both conditions non-empty, but the pair condition
has exactly one sample. -/
def exSingleton : List Row :=
  List.replicate 20 ⟨"violin", some 5⟩ ++ [⟨"pair", some 7⟩]

/-- Concrete interaction table: 11 violin rows (times 1, 2, 2, ..., 2) and
10 pair rows (all time 3) — total 21, both conditions with at least two
samples and the violin sample non-constant. -/
def exWelchRows : List Row :=
  ⟨"violin", some 1⟩ :: ⟨"violin", some 2⟩ ::
    (List.replicate 9 ⟨"violin", some 2⟩ ++ List.replicate 10 ⟨"pair", some 3⟩)

/-- Concrete interaction table: 21 rows, 11 violin and 10 pair, with only one
numeric `time_taken` per condition; the 19 other rows carry NaN. -/
def exNanRows : List Row :=
  List.replicate 10 ⟨"violin", none⟩ ++ ⟨"violin", some 5⟩ ::
    (List.replicate 9 ⟨"pair", none⟩ ++ [⟨"pair", some 7⟩])

/-- Concrete in-memory record set for the export round trip. -/
def exCsvRows : List CsvRow :=
  [⟨"2024-01-01 10:00:00".toList, "9f1c".toList, "violin".toList, "12.5".toList⟩,
   ⟨"2024-01-01 10:05:00".toList, "9f1c".toList, "pair".toList, "7.25".toList⟩]

/-! Theorems. -/

/-- C6: while a trial is active (`chart_displayed` set, the session-state
rendering of the spec's Running and AwaitingLog phases — awaiting-log never
persists as a session state, the handler resets within the same press), a
`Start Test` press has no observable effect: the whole state, in particular
`chart_type` and `start_time`, is unchanged, and this holds for every
possible draw and clock reading, so no condition draw can take effect. -/
theorem startTrial_noop_while_active (s : SessionState) (draw : Condition)
    (now : ℚ) (h : s.chart_displayed = true) :
    startPressed draw now s = s := by
  simp [startPressed, h]

theorem startTrial_noop_while_active_witness :
    (⟨true, some 2, some Condition.violin, false⟩ : SessionState).chart_displayed = true ∧
    startPressed Condition.pair 9 ⟨true, some 2, some Condition.violin, false⟩ =
      ⟨true, some 2, some Condition.violin, false⟩ :=
  ⟨rfl, startTrial_noop_while_active _ _ _ rfl⟩

/-- C3 counterexample: completing a trial at clock reading 1 with start time
2 (a non-monotonic clock) appends a record with `time_taken = -1`: line 217
computes `end_time - start_time` with no clamping, so a negative
`elapsed_seconds` is recorded, contradicting the claim that the value is
clamped to 0. -/
theorem elapsed_negative_counterexample :
    (completePressed true 1 ⟨true, some 2, some Condition.violin, false⟩).appended =
      [{ chart := Condition.violin, time_taken := -1 }] ∧ (-1 : ℚ) < 0 := by
  constructor
  · norm_num [completePressed]
  · norm_num

/-- C3 amended: CompleteTrial records `elapsed = now - start_time` with no
clamping (line 217); the recorded value is non-negative precisely when the
clock reading is at or after the start time, and negative when the clock is
non-monotonic and the reading precedes the start time. -/
theorem elapsed_eq_difference (s : SessionState) (t now : ℚ) (c : Condition)
    (hd : s.chart_displayed = true) (ht : s.start_time = some t)
    (hc : s.chart_type = some c) (hl : s.interaction_logged = false) :
    (completePressed true now s).appended =
      [{ chart := c, time_taken := now - t }] ∧
    (t ≤ now → 0 ≤ now - t) ∧ (now < t → now - t < 0) := by
  refine ⟨?_, fun h => by linarith, fun h => by linarith⟩
  simp [completePressed, hd, ht, hc, hl]

theorem elapsed_eq_difference_witness :
    (completePressed true 5 ⟨true, some 2, some Condition.violin, false⟩).appended =
      [{ chart := Condition.violin, time_taken := 5 - 2 }] ∧
    ((2 : ℚ) ≤ 5 → (0 : ℚ) ≤ 5 - 2) ∧ ((5 : ℚ) < 2 → (5 : ℚ) - 2 < 0) :=
  elapsed_eq_difference _ 2 5 Condition.violin rfl rfl rfl rfl

/-- C1 counterexample: from a running trial, a completion press whose logger
call fails leaves the machine in the reset idle state — `chart_displayed`
cleared, `start_time` and `chart_type` erased (lines 228-231) — not in an
awaiting-log state; no record is appended, and a further completion press
(the claimed retry) appends nothing even with a succeeding logger, so the
trial can never be logged. -/
theorem logger_failure_resets_counterexample :
    (completePressed false 5 ⟨true, some 0, some Condition.violin, false⟩).state = idleReset ∧
    (completePressed false 5 ⟨true, some 0, some Condition.violin, false⟩).appended = [] ∧
    (completePressed false 5 ⟨true, some 0, some Condition.violin, false⟩).errorShown = true ∧
    (completePressed true 6
      (completePressed false 5 ⟨true, some 0, some Condition.violin, false⟩).state).appended = [] := by
  decide

/-- C1 amended: when the logger fails, no record is appended and the failure
is surfaced to the user (line 227), but the state is reset to idle all the
same (lines 228-231) rather than remaining in an awaiting-log state:
`start_time` and `chart_type` are cleared, so no retry for the same trial is
possible — any further completion press appends nothing. On logger success
the state likewise transitions to idle, with exactly one record appended. -/
theorem completeTrial_failure_surfaced_but_reset (s : SessionState) (now : ℚ)
    (hd : s.chart_displayed = true) (hl : s.interaction_logged = false) :
    ((completePressed false now s).state = idleReset ∧
     (completePressed false now s).appended = [] ∧
     (completePressed false now s).errorShown = true ∧
     (∀ ok now2, (completePressed ok now2 (completePressed false now s).state).appended = [])) ∧
    ((completePressed true now s).state = idleReset ∧
     (completePressed true now s).appended.length = 1) := by
  refine ⟨⟨?_, ?_, ?_, ?_⟩, ?_, ?_⟩ <;>
    simp [completePressed, hd, hl, idleReset]

theorem completeTrial_failure_surfaced_but_reset_witness :
    ((completePressed false 7 ⟨true, some 3, some Condition.pair, false⟩).state = idleReset ∧
     (completePressed false 7 ⟨true, some 3, some Condition.pair, false⟩).appended = [] ∧
     (completePressed false 7 ⟨true, some 3, some Condition.pair, false⟩).errorShown = true ∧
     (∀ ok now2, (completePressed ok now2
        (completePressed false 7 ⟨true, some 3, some Condition.pair, false⟩).state).appended = [])) ∧
    ((completePressed true 7 ⟨true, some 3, some Condition.pair, false⟩).state = idleReset ∧
     (completePressed true 7 ⟨true, some 3, some Condition.pair, false⟩).appended.length = 1) :=
  completeTrial_failure_surfaced_but_reset _ 7 rfl rfl

/-- C8: when the read inside `log_interaction` fails (treated as an empty
prior log, lines 66-68 via line 79) but the full-table `conn.update`
succeeds, the worksheet afterwards holds exactly the one new record,
whatever `prior` rows the store durably held before: the read-then-replace
pattern discards every previously persisted record. -/
theorem failed_read_log_discards_prior (prior : Table) (e ts uid ct : String)
    (tt : ℚ) :
    sheetAfterLog prior true e ts uid ct tt =
      { cols := interactionCols,
        rows := [[Cell.str ts, Cell.str uid, Cell.str ct, Cell.num tt]] } := by
  rfl

/-- C9: `get_interactions_data` is total at the store boundary — it is a
function into tables, every read outcome included, so no exception
propagates — and on a raised read error or an empty read it returns the
table with exactly the four schema columns and zero rows. -/
theorem get_interactions_data_total (r : Except String Table) :
    ((∃ e, r = Except.error e) ∨ (∃ df, r = Except.ok df ∧ df.rows = []) →
      get_interactions_data r = schemaEmpty) ∧
    schemaEmpty.cols = ["timestamp", "user_id", "chart_type", "time_taken"] ∧
    schemaEmpty.rows = [] := by
  refine ⟨?_, rfl, rfl⟩
  rintro (⟨e, rfl⟩ | ⟨df, rfl, hdf⟩)
  · rfl
  · simp [get_interactions_data, hdf]

/-- Any completion press appends at most one record, and none at all when no
trial is active. -/
theorem complete_append_le (ok : Bool) (t : ℚ) (s : SessionState) :
    (completePressed ok t s).appended.length ≤ (if s.chart_displayed then 1 else 0) := by
  cases h : s.chart_displayed
  · simp [completePressed, h]
  · simp [completePressed, h]
    split_ifs <;> simp

/-- A completion press on an active trial with a clear flag and a succeeding
logger appends exactly one record. -/
theorem complete_append_eq (t : ℚ) (s : SessionState)
    (hd : s.chart_displayed = true) (hl : s.interaction_logged = false) :
    (completePressed true t s).appended.length = 1 := by
  simp [completePressed, hd, hl]

/-- A completion press on a state with the flag set appends nothing. -/
theorem complete_append_flagged (t : ℚ) (s : SessionState)
    (hl : s.interaction_logged = true) :
    (completePressed true t s).appended.length = 0 := by
  cases h : s.chart_displayed <;> simp [completePressed, h, hl]

/-- The state after a completion press satisfies the reachable-state
invariant: whenever a chart is displayed, the already-logged flag is clear. -/
theorem complete_state_flag (ok : Bool) (t : ℚ) (s : SessionState) :
    ((completePressed ok t s).state).chart_displayed = true →
    ((completePressed ok t s).state).interaction_logged = false := by
  cases h : s.chart_displayed <;> simp [completePressed, h, idleReset]

/-- A start press preserves the reachable-state invariant. -/
theorem start_state_flag (d : Condition) (t : ℚ) (s : SessionState)
    (hs : s.chart_displayed = true → s.interaction_logged = false) :
    (startPressed d t s).chart_displayed = true →
    (startPressed d t s).interaction_logged = false := by
  cases h : s.chart_displayed <;> simp [startPressed, h]
  exact hs h

/-- Along any event sequence from an invariant state, the number of appended
records never exceeds the number of completed trials, with equality when
every logger call succeeds. -/
theorem runEvents_spec (evs : List Event) : ∀ s : SessionState,
    (s.chart_displayed = true → s.interaction_logged = false) →
    (runEvents s evs).2.1 ≤ (runEvents s evs).2.2 ∧
    ((∀ e ∈ evs, e.loggerOk = true) →
      (runEvents s evs).2.1 = (runEvents s evs).2.2) := by
  induction evs with
  | nil => exact fun s _ => ⟨Nat.le_refl _, fun _ => rfl⟩
  | cons e es ih =>
    intro s hs
    cases e with
    | start d t =>
      have h := ih (startPressed d t s) (start_state_flag d t s hs)
      refine ⟨by simpa [runEvents] using h.1, fun hall => ?_⟩
      have h2 := h.2 (fun e he => hall e (List.mem_cons_of_mem _ he))
      simpa [runEvents] using h2
    | complete ok t =>
      have h := ih (completePressed ok t s).state (complete_state_flag ok t s)
      constructor
      · have hle := complete_append_le ok t s
        simp only [runEvents]
        exact Nat.add_le_add hle h.1
      · intro hall
        have hok : ok = true := by
          simpa [Event.loggerOk] using hall (Event.complete ok t) (List.mem_cons_self _ _)
        subst hok
        have h2 := h.2 (fun e he => hall e (List.mem_cons_of_mem _ he))
        simp only [runEvents]
        cases hd : s.chart_displayed
        · have hz : (completePressed true t s).appended.length = 0 := by
            simp [completePressed, hd]
          simp [hz, h2]
        · have ho : (completePressed true t s).appended.length = 1 :=
            complete_append_eq t s hd (hs hd)
          simp [ho, h2]

/-- C2 counterexample: whenever `log_interaction` is invoked, the
`interaction_logged` flag is still `false` at the moment of the invocation —
line 218 checks it and line 219 calls the logger with no assignment in
between; the flag is set only after the logger has returned success (line
221). This refutes the claimed mechanism of a flag "set immediately before
invoking the logger". -/
theorem flag_unset_at_logger_invocation :
    loggedFlagWhenLoggerInvoked ⟨true, some 0, some Condition.violin, false⟩ =
      some false := by
  decide

/-- C2 amended: along every sequence of start/complete presses from the
initial session state, the number of records appended never exceeds the
number of completed trials, and equals it when every logger call succeeds;
in particular two completion presses in a row for the same trial append
exactly one record. The enforcement is a per-trial already-logged flag
checked before every logger invocation (line 218) but set only after the
logger reports success (line 221), together with the chart-displayed flag
being cleared at the end of every completion handling (line 229), which
makes a duplicate completion press a no-op. -/
theorem records_bounded_by_completions (evs : List Event) :
    (runEvents initState evs).2.1 ≤ (runEvents initState evs).2.2 ∧
    ((∀ e ∈ evs, e.loggerOk = true) →
      (runEvents initState evs).2.1 = (runEvents initState evs).2.2) ∧
    (runEvents initState
      [Event.start Condition.violin 0, Event.complete true 4,
       Event.complete true 5]).2.1 = 1 := by
  have h := runEvents_spec evs initState (by simp [initState])
  exact ⟨h.1, h.2, by decide⟩

theorem records_bounded_by_completions_witness :
    (runEvents initState [Event.start Condition.violin 0, Event.complete true 4]).2.1 =
      (runEvents initState [Event.start Condition.violin 0, Event.complete true 4]).2.2 :=
  (records_bounded_by_completions
    [Event.start Condition.violin 0, Event.complete true 4]).2.1 (by decide)

theorem get_interactions_data_total_witness :
    get_interactions_data (Except.error "read failure") = schemaEmpty ∧
    schemaEmpty.cols = ["timestamp", "user_id", "chart_type", "time_taken"] ∧
    schemaEmpty.rows = [] :=
  ⟨(get_interactions_data_total _).1 (Or.inl ⟨"read failure", rfl⟩),
   (get_interactions_data_total (Except.error "read failure")).2⟩

/-- The insufficient-data message is shown exactly when the table has at most
20 rows (line 243 with line 263); an empty table has 0 rows, so it is
covered. -/
theorem gate_insufficient (rs : List Row) (h : rs.length ≤ 20) :
    computeSignificance rs = SigOutcome.insufficientData := by
  unfold computeSignificance
  rw [if_neg]
  rintro ⟨-, h2⟩
  omega

/-- When the table passes the outer guard but one condition has no rows, the
analysis block renders nothing (the guard of line 249 has no else branch). -/
theorem gate_noreport (rs : List Row) (h1 : 20 < rs.length)
    (h2 : (violin_times rs).length = 0 ∨ (pair_times rs).length = 0) :
    computeSignificance rs = SigOutcome.noReport := by
  have hne : ¬rs = [] := by
    intro he
    subst he
    simp at h1
  unfold computeSignificance
  rw [if_pos ⟨hne, h1⟩, if_neg]
  rintro ⟨hv, hp⟩
  rcases h2 with h | h <;> omega

/-- The t-test call runs, with `equal_var=False` and the two per-condition
series as samples, exactly when the table has more than 20 rows and both
series are non-empty (lines 243-250). -/
theorem computeSignificance_runs (rs : List Row) (hne : ¬rs = [])
    (hlen : 20 < rs.length) (hv : 0 < (violin_times rs).length)
    (hp : 0 < (pair_times rs).length) :
    computeSignificance rs =
      SigOutcome.testRun (violin_times rs) (pair_times rs) false := by
  unfold computeSignificance
  rw [if_pos ⟨hne, hlen⟩, if_pos ⟨hv, hp⟩]

/-- C4 counterexample: on 21 recorded rows that are all of the violin
condition, the pair condition has zero samples, yet the code reports nothing
at all — no Unavailable (and no insufficient-data) message exists on this
path: the guard of line 249 simply has no else branch. -/
theorem no_unavailable_report_counterexample :
    computeSignificance exAllViolin = SigOutcome.noReport ∧
    (pair_times exAllViolin).length = 0 ∧
    exAllViolin.length = 21 := by
  refine ⟨rfl, rfl, rfl⟩

/-- C4 amended: the analysis reports "insufficient data" whenever the table
has at most 20 rows (the empty table included) and attempts no test there;
when the table has more than 20 rows but either condition has zero samples
it attempts no test either, but reports nothing at all — there is no
Unavailable report. In neither case is an estimate emitted. -/
theorem significance_insufficient_or_silent (rs : List Row) :
    (rs.length ≤ 20 → computeSignificance rs = SigOutcome.insufficientData) ∧
    (20 < rs.length →
      ((violin_times rs).length = 0 ∨ (pair_times rs).length = 0) →
      computeSignificance rs = SigOutcome.noReport) :=
  ⟨gate_insufficient rs, gate_noreport rs⟩

theorem significance_insufficient_or_silent_witness :
    computeSignificance [] = SigOutcome.insufficientData ∧
    computeSignificance exAllViolin = SigOutcome.noReport :=
  ⟨(significance_insufficient_or_silent []).1 (by decide),
   (significance_insufficient_or_silent exAllViolin).2 (by decide)
     (Or.inr (by decide))⟩

/-- A series with no NaN sequences to a list of the same length. -/
theorem seqOpts_isSome (l : List (Option ℚ)) (h : ∀ x ∈ l, x ≠ none) :
    ∃ m, seqOpts l = some m ∧ m.length = l.length := by
  induction l with
  | nil => exact ⟨[], rfl, rfl⟩
  | cons a t ih =>
    cases a with
    | none => exact absurd rfl (h none (List.mem_cons_self _ _))
    | some q =>
      obtain ⟨m, hm, hlen⟩ := ih (fun x hx => h x (List.mem_cons_of_mem _ hx))
      exact ⟨q :: m, by simp [seqOpts, hm], by simp [hlen]⟩

/-- Sums of squared deviations are non-negative. -/
theorem sum_sq_nonneg (l : List ℚ) (m : ℚ) :
    0 ≤ (l.map fun x => (x - m) ^ 2).sum := by
  apply List.sum_nonneg
  intro x hx
  obtain ⟨y, -, rfl⟩ := List.mem_map.mp hx
  positivity

/-- On at least two values the sample variance is defined. -/
theorem sampleVar_some (l : List ℚ) (h : 2 ≤ l.length) :
    sampleVar l =
      some ((l.map fun x => (x - sampleMean l) ^ 2).sum / ((l.length : ℚ) - 1)) := by
  simp [sampleVar, Nat.not_lt.mpr h]

/-- A defined sample variance is non-negative. -/
theorem sampleVar_nonneg (l : List ℚ) (v : ℚ) (h : sampleVar l = some v) :
    0 ≤ v := by
  unfold sampleVar at h
  by_cases hl : l.length < 2
  · rw [if_pos hl] at h
    exact absurd h (by simp)
  · rw [if_neg hl] at h
    injection h with h
    subst h
    have h2 : 2 ≤ l.length := Nat.not_lt.mp hl
    have h2q : (2 : ℚ) ≤ (l.length : ℚ) := by exact_mod_cast h2
    exact div_nonneg (sum_sq_nonneg l _) (by linarith)

/-- The square of a difference of distinct values is positive. -/
theorem sq_pos_of_ne (x y : ℚ) (h : x ≠ y) : 0 < (x - y) ^ 2 := by
  have hx : x - y ≠ 0 := sub_ne_zero.mpr h
  exact (sq_nonneg _).lt_of_ne (fun he => hx (sq_eq_zero_iff.mp he.symm))

/-- A sample containing two distinct values has positive sample variance. -/
theorem sampleVar_pos (l : List ℚ) (v x y : ℚ) (hx : x ∈ l) (hy : y ∈ l)
    (hxy : x ≠ y) (h : sampleVar l = some v) : 0 < v := by
  unfold sampleVar at h
  by_cases hl : l.length < 2
  · rw [if_pos hl] at h
    exact absurd h (by simp)
  · rw [if_neg hl] at h
    injection h with h
    subst h
    have h2 : 2 ≤ l.length := Nat.not_lt.mp hl
    have h2q : (2 : ℚ) ≤ (l.length : ℚ) := by exact_mod_cast h2
    have hterm : ∃ z ∈ l, 0 < (z - sampleMean l) ^ 2 := by
      by_cases hxm : x = sampleMean l
      · have hym : y ≠ sampleMean l := fun hym => hxy (hxm.trans hym.symm)
        exact ⟨y, hy, sq_pos_of_ne y _ hym⟩
      · exact ⟨x, hx, sq_pos_of_ne x _ hxm⟩
    obtain ⟨z, hz, hzpos⟩ := hterm
    have hmem : (z - sampleMean l) ^ 2 ∈ l.map (fun w => (w - sampleMean l) ^ 2) :=
      List.mem_map_of_mem _ hz
    have hle : (z - sampleMean l) ^ 2 ≤ (l.map fun w => (w - sampleMean l) ^ 2).sum := by
      apply List.single_le_sum _ _ hmem
      intro w hw
      obtain ⟨u, -, rfl⟩ := List.mem_map.mp hw
      positivity
    exact div_pos (lt_of_lt_of_le hzpos hle) (by linarith)

/-- The Welch statistic is defined whenever both samples are NaN-free with at
least two values each and one of them is non-constant. -/
theorem welch_isSome (xs ys : List (Option ℚ)) (a b : List ℚ)
    (hxa : seqOpts xs = some a) (hyb : seqOpts ys = some b)
    (h2a : 2 ≤ a.length) (h2b : 2 ≤ b.length)
    (x y : ℚ) (hx : x ∈ a) (hy : y ∈ a) (hxy : x ≠ y) :
    (welchTSq xs ys).isSome = true := by
  have hva := sampleVar_some a h2a
  have hvb := sampleVar_some b h2b
  have hv1pos : 0 < (a.map fun w => (w - sampleMean a) ^ 2).sum / ((a.length : ℚ) - 1) :=
    sampleVar_pos a _ x y hx hy hxy hva
  have hv2 : 0 ≤ (b.map fun w => (w - sampleMean b) ^ 2).sum / ((b.length : ℚ) - 1) :=
    sampleVar_nonneg b _ hvb
  have hna : (0 : ℚ) < (a.length : ℚ) := by
    have : 0 < a.length := by omega
    exact_mod_cast this
  have hnb : (0 : ℚ) < (b.length : ℚ) := by
    have : 0 < b.length := by omega
    exact_mod_cast this
  have hd : 0 < (a.map fun w => (w - sampleMean a) ^ 2).sum / ((a.length : ℚ) - 1) / (a.length : ℚ) +
      (b.map fun w => (w - sampleMean b) ^ 2).sum / ((b.length : ℚ) - 1) / (b.length : ℚ) := by
    have ha' := div_pos hv1pos hna
    have hb' := div_nonneg hv2 (le_of_lt hnb)
    linarith
  unfold welchTSq
  rw [hxa, hyb]
  simp only [hva, hvb]
  rw [if_neg (ne_of_gt hd)]
  rfl

/-- C5 counterexample: on 20 violin rows of time 5 and a single pair row of
time 7 the test runs (total 21 > 20, both conditions non-empty), but the
Welch statistic is undefined: the pair sample has one value, so its
Bessel-corrected variance — and with it the t statistic and the p-value the
library reports — is NaN, not a defined value. -/
theorem welch_undefined_counterexample :
    computeSignificance exSingleton =
      SigOutcome.testRun (violin_times exSingleton) (pair_times exSingleton) false ∧
    (pair_times exSingleton).length = 1 ∧
    welchTSq (violin_times exSingleton) (pair_times exSingleton) = none :=
  ⟨rfl, rfl, rfl⟩

/-- C5 amended: whenever the significance test runs (more than 20 rows, both
per-condition series non-empty), the code performs the unequal-variance
(Welch) two-sample t-test over the per-condition elapsed-time series; the
resulting t statistic and p-value are defined provided both series are
NaN-free with at least two samples each and the first sample is
non-constant — with a singleton condition the sample variance, and with it
the reported statistic, is undefined. -/
theorem welch_test_runs (rs : List Row) (hne : ¬rs = [])
    (hlen : 20 < rs.length) (hv : 0 < (violin_times rs).length)
    (hp : 0 < (pair_times rs).length) :
    computeSignificance rs =
      SigOutcome.testRun (violin_times rs) (pair_times rs) false ∧
    (∀ a b x y, seqOpts (violin_times rs) = some a →
      seqOpts (pair_times rs) = some b →
      2 ≤ a.length → 2 ≤ b.length → x ∈ a → y ∈ a → x ≠ y →
      (welchTSq (violin_times rs) (pair_times rs)).isSome = true) :=
  ⟨computeSignificance_runs rs hne hlen hv hp,
   fun a b x y hxa hyb h2a h2b hx hy hxy =>
     welch_isSome _ _ a b hxa hyb h2a h2b x y hx hy hxy⟩

theorem welch_test_runs_witness :
    computeSignificance exWelchRows =
      SigOutcome.testRun (violin_times exWelchRows) (pair_times exWelchRows) false ∧
    (welchTSq (violin_times exWelchRows) (pair_times exWelchRows)).isSome = true :=
  ⟨(welch_test_runs exWelchRows (by decide) (by decide) (by decide) (by decide)).1,
   (welch_test_runs exWelchRows (by decide) (by decide) (by decide) (by decide)).2
     (1 :: 2 :: List.replicate 9 2) (List.replicate 10 3) 1 2 rfl rfl
     (by decide) (by decide) (List.mem_cons_self _ _)
     (List.mem_cons_of_mem _ (List.mem_cons_self _ _)) (by norm_num)⟩

/-- Dropping NaN from a mapped-out column is the same as filter-mapping the
column out of the rows. -/
theorem numericVals_map (l : List Row) :
    numericVals (l.map fun r => r.time_taken) = l.filterMap (fun r => r.time_taken) := by
  induction l with
  | nil => rfl
  | cons r t ih =>
    cases h : r.time_taken <;>
      simp [numericVals, List.filterMap_cons, h]

/-- The non-NaN values of a per-condition series are exactly the column
values of the rows of that condition whose `time_taken` is present. -/
theorem numericVals_groupVals (rs : List Row) (c : String) :
    numericVals (groupVals rs c) = (usableRows rs c).filterMap (fun r => r.time_taken) := by
  induction rs with
  | nil => rfl
  | cons r t ih =>
    cases h1 : (r.chart_type == c) with
    | false =>
      simpa [groupVals, usableRows, numericVals, List.filter_cons, h1] using ih
    | true =>
      cases h2 : r.time_taken with
      | none =>
        simpa [groupVals, usableRows, numericVals, List.filter_cons,
          List.filterMap_cons, h1, h2] using ih
      | some q =>
        simpa [groupVals, usableRows, numericVals, List.filter_cons,
          List.filterMap_cons, h1, h2] using ih

/-- Filter-mapping a column that is present on every row preserves length. -/
theorem length_filterMap_isSome (l : List Row)
    (h : ∀ r ∈ l, r.time_taken.isSome = true) :
    (l.filterMap fun r => r.time_taken).length = l.length := by
  induction l with
  | nil => rfl
  | cons a t ih =>
    obtain ⟨q, hq⟩ := Option.isSome_iff_exists.mp (h a (List.mem_cons_self _ _))
    simp [List.filterMap_cons, hq,
      ih (fun r hr => h r (List.mem_cons_of_mem _ hr))]

/-- Every usable row carries a present `time_taken`. -/
theorem usable_isSome (rs : List Row) (c : String) :
    ∀ r ∈ usableRows rs c, r.time_taken.isSome = true := by
  intro r hr
  have h := List.of_mem_filter hr
  simp only [Bool.and_eq_true] at h
  exact h.2

/-- C10: rows whose `time_taken` is NaN (a non-numeric cell coerced at line
64) count towards the total-interactions figure (line 142) and towards the
more-than-20 significance gate (line 243), but are excluded from the
per-condition count, mean, min, max and standard deviation of the summary
(line 144, pandas NaN-skipping aggregation); consequently the gate can be
passed with fewer than 21 usable samples — on `exNanRows`, 21 rows of which
only 2 are usable, the t-test runs. -/
theorem nan_rows_in_total_excluded_from_stats (rs : List Row) (c : String) :
    totalInteractions rs = rs.length ∧
    (computeSignificance rs = SigOutcome.insufficientData ↔ rs.length ≤ 20) ∧
    aggCount (groupVals rs c) = (usableRows rs c).length ∧
    numericVals (groupVals rs c) = (usableRows rs c).filterMap (fun r => r.time_taken) ∧
    aggMean (groupVals rs c) = aggMean ((usableRows rs c).map fun r => r.time_taken) ∧
    aggMin (groupVals rs c) = aggMin ((usableRows rs c).map fun r => r.time_taken) ∧
    aggMax (groupVals rs c) = aggMax ((usableRows rs c).map fun r => r.time_taken) ∧
    aggVar (groupVals rs c) = aggVar ((usableRows rs c).map fun r => r.time_taken) ∧
    (computeSignificance exNanRows =
        SigOutcome.testRun (violin_times exNanRows) (pair_times exNanRows) false ∧
      aggCount (violin_times exNanRows) + aggCount (pair_times exNanRows) = 2) := by
  have key := numericVals_groupVals rs c
  have key2 := numericVals_map (usableRows rs c)
  refine ⟨rfl, ?_, ?_, key, ?_, ?_, ?_, ?_, rfl, rfl⟩
  · constructor
    · intro h
      by_contra hgt
      push_neg at hgt
      have hne : ¬rs = [] := by
        intro he
        rw [he] at hgt
        simp at hgt
      unfold computeSignificance at h
      rw [if_pos ⟨hne, hgt⟩] at h
      split_ifs at h
    · exact gate_insufficient rs
  · unfold aggCount
    rw [key]
    exact length_filterMap_isSome _ (usable_isSome rs c)
  · unfold aggMean
    rw [key, key2]
  · unfold aggMin
    rw [key, key2]
  · unfold aggMax
    rw [key, key2]
  · unfold aggVar
    rw [key, key2]

/-- Splitting a separator-free list yields the list as its only group. -/
theorem splitAux_not_mem (c : Char) (l : List Char) (h : c ∉ l) :
    splitAux c l = (l, []) := by
  induction l with
  | nil => rfl
  | cons x xs ih =>
    have hx : ¬x = c := fun he => h (he ▸ List.mem_cons_self _ _)
    have ht : c ∉ xs := fun hm => h (List.mem_cons_of_mem _ hm)
    simp [splitAux, hx, ih ht]

/-- Splitting past a separator-free prefix peels it off as the first group. -/
theorem splitAux_append (c : Char) (xs t : List Char) (h : c ∉ xs) :
    splitAux c (xs ++ c :: t) = (xs, (splitAux c t).1 :: (splitAux c t).2) := by
  induction xs with
  | nil => simp [splitAux]
  | cons x l ih =>
    have hx : ¬x = c := fun he => h (he ▸ List.mem_cons_self _ _)
    have hl : c ∉ l := fun hm => h (List.mem_cons_of_mem _ hm)
    simp [splitAux, hx, ih hl]

/-- Group form of `splitAux_append`. -/
theorem splitOnChar_append (c : Char) (xs t : List Char) (h : c ∉ xs) :
    splitOnChar c (xs ++ c :: t) = xs :: splitOnChar c t := by
  simp [splitOnChar, splitAux_append c xs t h]

/-- Group form of `splitAux_not_mem`. -/
theorem splitOnChar_no_sep (c : Char) (l : List Char) (h : c ∉ l) :
    splitOnChar c l = [l] := by
  simp [splitOnChar, splitAux_not_mem c l h]

/-- Splitting newline-terminated separator-free lines recovers the lines,
plus the empty trailing group after the final terminator. -/
theorem splitOnChar_lines (c : Char) (ls : List (List Char))
    (h : ∀ l ∈ ls, c ∉ l) :
    splitOnChar c (ls.foldr (fun l acc => l ++ c :: acc) []) = ls ++ [[]] := by
  induction ls with
  | nil => rfl
  | cons l t ih =>
    rw [List.foldr_cons, splitOnChar_append c l _ (h l (List.mem_cons_self _ _)),
      ih (fun x hx => h x (List.mem_cons_of_mem _ hx))]
    rfl

/-- Parsing one rendered line recovers the record, provided its fields are
delimiter-free. -/
theorem parseRow_rowLine (r : CsvRow) (h : ∀ f ∈ rowFields r, goodField f) :
    parseRow (rowLine r) = some r := by
  have h1 := h r.timestamp (by simp [rowFields])
  have h2 := h r.user_id (by simp [rowFields])
  have h3 := h r.chart_type (by simp [rowFields])
  have h4 := h r.time_taken (by simp [rowFields])
  have hsplit : splitOnChar ',' (rowLine r) =
      [r.timestamp, r.user_id, r.chart_type, r.time_taken] := by
    unfold rowLine
    rw [splitOnChar_append _ _ _ h1.1, splitOnChar_append _ _ _ h2.1,
      splitOnChar_append _ _ _ h3.1, splitOnChar_no_sep _ _ h4.1]
  unfold parseRow
  rw [hsplit]

/-- Parsing the rendered lines of a record list recovers the records. -/
theorem parseRows_map (rows : List CsvRow)
    (h : ∀ r ∈ rows, ∀ f ∈ rowFields r, goodField f) :
    parseRows (rows.map rowLine) = some rows := by
  induction rows with
  | nil => rfl
  | cons r t ih =>
    rw [List.map_cons]
    unfold parseRows
    rw [parseRow_rowLine r (h r (List.mem_cons_self _ _)),
      ih (fun r' hr' => h r' (List.mem_cons_of_mem _ hr'))]

/-- A rendered line contains no newline when the record's fields are clean. -/
theorem newline_not_in_rowLine (r : CsvRow) (h : ∀ f ∈ rowFields r, goodField f) :
    '\n' ∉ rowLine r := by
  have h1 := h r.timestamp (by simp [rowFields])
  have h2 := h r.user_id (by simp [rowFields])
  have h3 := h r.chart_type (by simp [rowFields])
  have h4 := h r.time_taken (by simp [rowFields])
  intro hmem
  have hch : ¬('\n' = ',') := by decide
  simp only [rowLine, List.mem_append, List.mem_cons] at hmem
  simp [h1.2.1, h2.2.1, h3.2.1, h4.2.1, hch] at hmem

/-- C7: exporting any in-memory record set with `to_csv` (header row matching
the persisted schema, one newline-terminated comma-joined line per record)
and re-parsing the text yields exactly the original records, field by field,
provided every field is free of delimiter, newline and quote characters (the
case in which `to_csv` writes fields verbatim; the schema's timestamps, ids,
condition labels and decimal numbers satisfy this). The exported text is a
pure function of the record set, hence reproducible from it. -/
theorem csv_round_trip (rows : List CsvRow)
    (h : ∀ r ∈ rows, ∀ f ∈ rowFields r, goodField f) :
    parseCsv (toCsv rows) = some rows := by
  have hnl : ∀ l ∈ headerChars :: rows.map rowLine, '\n' ∉ l := by
    intro l hl
    rcases List.mem_cons.mp hl with rfl | hl
    · decide
    · obtain ⟨r, hr, rfl⟩ := List.mem_map.mp hl
      exact newline_not_in_rowLine r (h r hr)
  have hsplit : splitOnChar '\n' (toCsv rows) =
      headerChars :: (rows.map rowLine ++ [[]]) := by
    unfold toCsv
    rw [splitOnChar_lines '\n' _ hnl]
    rfl
  unfold parseCsv
  rw [hsplit]
  simp only [List.getLast?_concat, and_true, if_true, List.dropLast_concat]
  exact parseRows_map rows h

theorem csv_round_trip_witness : parseCsv (toCsv exCsvRows) = some exCsvRows :=
  csv_round_trip exCsvRows (by decide)

theorem nan_rows_in_total_excluded_from_stats_witness :
    totalInteractions exNanRows = exNanRows.length ∧
    aggCount (groupVals exNanRows "violin") = (usableRows exNanRows "violin").length :=
  ⟨(nan_rows_in_total_excluded_from_stats exNanRows "violin").1,
   (nan_rows_in_total_excluded_from_stats exNanRows "violin").2.2.1⟩
